import Mathlib

/-!
Formal model of the VAULT portfolio application (src/app.py).

The application is a Streamlit dashboard that tracks equity holdings across
named profiles, prices them with a quote provider, converts USD figures into a
display currency, and syncs the whole state with a remote JSON document store.

Modelling conventions:
* Python floats are modelled by the type PyF below: exact rationals for finite
  values plus the three non-finite IEEE values (positive infinity, negative
  infinity, NaN).  Binary rounding of finite arithmetic is not modelled; the
  claims under study concern division by zero, algebraic identities that the
  code establishes definitionally, and control flow, none of which depend on
  rounding.  Signed zero is not modelled.
* Fallible Python code (try/except) is modelled with Except; the external
  collaborators (yfinance, requests, Streamlit secrets) are modelled as
  explicit parameters describing the data they would return or whether they
  raise.
* JSON documents are modelled by the inductive JVal; Python dicts become
  association lists with unique keys, preserving insertion order, which is the
  ordering contract of Python dicts.
-/

/-- IEEE-style value of a Python float: a finite rational, one of the two
infinities, or NaN.  Finite arithmetic is exact (rounding not modelled). -/
inductive PyF where
  | fin (q : ℚ)
  | inf
  | ninf
  | nan
deriving DecidableEq, Repr

/-- IEEE addition on PyF: NaN propagates, opposite infinities give NaN. -/
def pyAdd : PyF → PyF → PyF
  | .nan, _ => .nan
  | _, .nan => .nan
  | .inf, .ninf => .nan
  | .ninf, .inf => .nan
  | .inf, _ => .inf
  | _, .inf => .inf
  | .ninf, _ => .ninf
  | _, .ninf => .ninf
  | .fin a, .fin b => .fin (a + b)

/-- IEEE negation on PyF. -/
def pyNeg : PyF → PyF
  | .fin a => .fin (-a)
  | .inf => .ninf
  | .ninf => .inf
  | .nan => .nan

/-- IEEE subtraction on PyF, as addition of the negation. -/
def pySub (a b : PyF) : PyF := pyAdd a (pyNeg b)

/-- IEEE multiplication on PyF: NaN propagates, infinity times zero is NaN,
infinity times a nonzero finite value is a signed infinity. -/
def pyMul : PyF → PyF → PyF
  | .nan, _ => .nan
  | _, .nan => .nan
  | .fin a, .fin b => .fin (a * b)
  | .inf, .inf => .inf
  | .inf, .ninf => .ninf
  | .ninf, .inf => .ninf
  | .ninf, .ninf => .inf
  | .inf, .fin b => if b = 0 then .nan else if 0 < b then .inf else .ninf
  | .fin a, .inf => if a = 0 then .nan else if 0 < a then .inf else .ninf
  | .ninf, .fin b => if b = 0 then .nan else if 0 < b then .ninf else .inf
  | .fin a, .ninf => if a = 0 then .nan else if 0 < a then .ninf else .inf

/-- IEEE division on PyF.  This is the semantics of numpy and pandas column
division (a warning is emitted at runtime, no exception): a nonzero finite
value divided by zero is a signed infinity, zero divided by zero is NaN. -/
def pyDiv : PyF → PyF → PyF
  | .nan, _ => .nan
  | _, .nan => .nan
  | .fin a, .fin b =>
      if b = 0 then (if a = 0 then .nan else if 0 < a then .inf else .ninf)
      else .fin (a / b)
  | .inf, .fin b => if b < 0 then .ninf else .inf
  | .ninf, .fin b => if b < 0 then .inf else .ninf
  | .fin _, .inf => .fin 0
  | .fin _, .ninf => .fin 0
  | .inf, .inf => .nan
  | .inf, .ninf => .nan
  | .ninf, .inf => .nan
  | .ninf, .ninf => .nan

/-- Sum of a pandas Series with the default skipna=True: NaN entries are
skipped, the empty sum is 0.0. -/
def pandasSum (l : List PyF) : PyF :=
  l.foldl (fun acc x => if x = .nan then acc else pyAdd acc x) (.fin 0)

/-- Python truthiness of a float: falsy exactly when it equals 0.0.
Both infinities and NaN are truthy. -/
def pyTruthy : PyF → Bool
  | .fin q => if q = 0 then false else true
  | _ => true

/-- True exactly on finite values. -/
def PyF.isFinite : PyF → Bool
  | .fin _ => true
  | _ => false

/-- Model of classify_market_cap (src/app.py lines 56 to 63): a falsy input
(None or 0) is Unknown, otherwise the cap is scaled to billions and compared
top-down against the threshold table.  The input None models Python None. -/
def classify_market_cap (market_cap : Option ℚ) : String :=
  match market_cap with
  | none => "Unknown"
  | some m =>
    if m = 0 then "Unknown"
    else
      let billions := m / 1000000000
      if billions ≥ 200 then "Mega Cap (초대형주)"
      else if billions ≥ 10 then "Large Cap (대형주)"
      else if billions ≥ 2 then "Mid Cap (중형주)"
      else if billions ≥ 0.3 then "Small Cap (소형주)"
      else "Micro Cap (초소형주)"

/-- Modelled from the words of the specification section 4.1 (threshold table
on the raw USD cap), but carrying the label strings the code actually
produces.  Used to compare the code against the specified bucket structure. -/
def classifySpecLabels (market_cap : Option ℚ) : String :=
  match market_cap with
  | none => "Unknown"
  | some m =>
    if m = 0 then "Unknown"
    else if m ≥ 200 * 1000000000 then "Mega Cap (초대형주)"
    else if m ≥ 10 * 1000000000 then "Large Cap (대형주)"
    else if m ≥ 2 * 1000000000 then "Mid Cap (중형주)"
    else if m ≥ 0.3 * 1000000000 then "Small Cap (소형주)"
    else "Micro Cap (초소형주)"

theorem classify_eq_specLabels (m : Option ℚ) :
    classify_market_cap m = classifySpecLabels m := by
  cases m with
  | none => rfl
  | some q =>
    simp only [classify_market_cap, classifySpecLabels]
    by_cases h0 : q = 0
    · simp [h0]
    · have e1 : ((200 : ℚ) ≤ q / 1000000000) = ((200 : ℚ) * 1000000000 ≤ q) :=
        propext (le_div_iff₀ (by norm_num))
      have e2 : ((10 : ℚ) ≤ q / 1000000000) = ((10 : ℚ) * 1000000000 ≤ q) :=
        propext (le_div_iff₀ (by norm_num))
      have e3 : ((2 : ℚ) ≤ q / 1000000000) = ((2 : ℚ) * 1000000000 ≤ q) :=
        propext (le_div_iff₀ (by norm_num))
      have e4 : ((0.3 : ℚ) ≤ q / 1000000000) = ((0.3 : ℚ) * 1000000000 ≤ q) :=
        propext (le_div_iff₀ (by norm_num))
      simp only [h0, if_false, ge_iff_le, e1, e2, e3, e4]

/-- Claim C4 counterexample: the classifier does not return the bare label
"Large Cap" claimed by the specification test; the label string produced by
the code carries a Korean suffix. -/
theorem c4_counterexample :
    ¬ (classify_market_cap (some 199999999999) = "Large Cap") := by
  have h : classify_market_cap (some 199999999999) = "Large Cap (대형주)" := by
    rw [classify_eq_specLabels]
    simp only [classifySpecLabels]
    norm_num
  rw [h]
  decide

/-- Claim C4 (amended): the classifier is a pure total function following the
top-down threshold table of the specification (greater or equal 200e9 Mega,
10e9 Large, 2e9 Mid, 0.3e9 Small, else Micro, with None or 0 mapped to
Unknown), but the five bucket labels are the full strings of the code, with
Korean suffixes: classify(199999999999) is "Large Cap (대형주)",
classify(200000000000) is "Mega Cap (초대형주)" (boundary inclusive), and
classify(0) = classify(None) = "Unknown" as claimed. -/
theorem c4_theorem (m : Option ℚ) :
    classify_market_cap m = classifySpecLabels m
    ∧ classify_market_cap (some 199999999999) = "Large Cap (대형주)"
    ∧ classify_market_cap (some 200000000000) = "Mega Cap (초대형주)"
    ∧ classify_market_cap none = "Unknown"
    ∧ classify_market_cap (some 0) = "Unknown" := by
  refine ⟨classify_eq_specLabels m, ?_, ?_, rfl, ?_⟩
  · rw [classify_eq_specLabels]; simp only [classifySpecLabels]; norm_num
  · rw [classify_eq_specLabels]; simp only [classifySpecLabels]; norm_num
  · rw [classify_eq_specLabels]; simp only [classifySpecLabels]; norm_num

/-- Data returned by the yfinance collaborator for one ticker, as consumed by
fetch_stock_data (src/app.py lines 66 to 80).  lastPrice models
fast_info.get, histClose models the close of a nonempty 1d/1m history (None
when the history is empty), infoCurrentPrice, infoSector and infoMarketCap
model the corresponding keys of stock.info (None when absent), and raises
models any of those calls raising an exception. -/
structure QuoteFeed where
  lastPrice : Option ℚ
  histClose : Option ℚ
  infoCurrentPrice : Option ℚ
  infoSector : Option String
  infoMarketCap : Option ℚ
  raises : Bool
deriving DecidableEq, Repr

/-- Result of fetch_stock_data: the Python function returns either the dict
with valid False, or a dict with valid True carrying price, sector and market
cap class. -/
inductive FetchResult where
  | invalid
  | valid (currentPrice : ℚ) (sector : String) (marketCapClass : String)
deriving DecidableEq, Repr

/-- Model of fetch_stock_data (src/app.py lines 66 to 80): tier (a) is the
last traded price, tier (b) the 1d/1m intraday close when the history is
nonempty, tier (c) info.get of currentPrice with default 0.  Any exception
yields the invalid result. -/
def fetch_stock_data (f : QuoteFeed) : FetchResult :=
  if f.raises then .invalid
  else
    let price :=
      match f.lastPrice with
      | some p => p
      | none =>
        match f.histClose with
        | some c => c
        | none => f.infoCurrentPrice.getD 0
    .valid price (f.infoSector.getD "Others")
      (classify_market_cap (some (f.infoMarketCap.getD 0)))

/-- A feed on which all three quote tiers yield no data, without raising. -/
def allTiersFailFeed : QuoteFeed := ⟨none, none, none, none, none, false⟩

/-- A feed on which the collaborator raises. -/
def raisingFeed : QuoteFeed := ⟨none, none, none, none, none, true⟩

/-- Claim C2 counterexample: when all three quote tiers fail without an
exception, the lookup does not return a Failure; it returns a valid result
whose price is 0, exactly the zero stand-in the claim rules out. -/
theorem c2_counterexample :
    fetch_stock_data allTiersFailFeed = .valid 0 "Others" "Unknown"
    ∧ FetchResult.valid 0 "Others" "Unknown" ≠ .invalid := by
  constructor
  · simp only [fetch_stock_data, allTiersFailFeed, Option.getD]
    rw [classify_eq_specLabels]
    simp [classifySpecLabels]
  · decide

/-- Claim C2 (amended): the quote lookup returns a Failure exactly when the
underlying provider calls raise an exception.  When all three tiers merely
yield no data without raising, the lookup returns a valid result whose price
is the default 0 of the fundamentals tier, so a zero price does stand in for
an unknown price and is not distinguishable from a legitimately zero-priced
instrument. -/
theorem c2_theorem (f : QuoteFeed) :
    (fetch_stock_data f = .invalid ↔ f.raises = true)
    ∧ (f.raises = false →
        fetch_stock_data f =
          .valid (f.lastPrice.getD (f.histClose.getD (f.infoCurrentPrice.getD 0)))
            (f.infoSector.getD "Others")
            (classify_market_cap (some (f.infoMarketCap.getD 0)))) := by
  constructor
  · constructor
    · intro h
      by_contra hr
      have hr2 : f.raises = false := by
        cases hfr : f.raises
        · rfl
        · exact absurd hfr hr
      simp only [fetch_stock_data, hr2, Bool.false_eq_true, if_false] at h
      cases hl : f.lastPrice <;> cases hc : f.histClose <;>
        simp only [hl, hc] at h <;> exact FetchResult.noConfusion h
    · intro h
      simp [fetch_stock_data, h]
  · intro h
    simp only [fetch_stock_data, h, Bool.false_eq_true, if_false]
    cases hl : f.lastPrice <;> cases hc : f.histClose <;>
      simp [hl, hc, Option.getD]

/-- Claim C2 witness: the amended theorem applied to the raising feed and the
all-tiers-fail feed. -/
theorem c2_witness :
    fetch_stock_data raisingFeed = .invalid
    ∧ fetch_stock_data allTiersFailFeed =
        .valid 0 "Others" (classify_market_cap (some 0)) := by
  constructor
  · exact (c2_theorem raisingFeed).1.mpr rfl
  · exact (c2_theorem allTiersFailFeed).2 rfl

/-- One holding row of a profile, mirroring the dict built by add_stock
(src/app.py lines 109 to 116): Ticker, Avg Price, Quantity, Current Price,
Sector, Market Cap Class.  Numeric fields are Python floats. -/
structure Holding where
  ticker : String
  avgPrice : PyF
  quantity : PyF
  currentPrice : PyF
  sector : String
  marketCapClass : String
deriving DecidableEq, Repr

/-- Column Invested_USD (src/app.py line 211): Avg Price times Quantity. -/
def investedUSD (h : Holding) : PyF := pyMul h.avgPrice h.quantity

/-- Column Value_USD (src/app.py line 212): Current Price times Quantity. -/
def valueUSD (h : Holding) : PyF := pyMul h.currentPrice h.quantity

/-- Column PnL_USD (src/app.py line 213): Value_USD minus Invested_USD. -/
def pnlUSD (h : Holding) : PyF := pySub (valueUSD h) (investedUSD h)

/-- Column Return percent (src/app.py line 214): PnL_USD divided by
Invested_USD, times 100, with no guard against a zero divisor. -/
def returnPct (h : Holding) : PyF :=
  pyMul (pyDiv (pnlUSD h) (investedUSD h)) (.fin 100)

/-- Column Invested_Disp (src/app.py line 222): Invested_USD times the
display rate. -/
def investedDisp (h : Holding) (rate : ℚ) : PyF := pyMul (investedUSD h) (.fin rate)

/-- Column Value_Disp (src/app.py line 223). -/
def valueDisp (h : Holding) (rate : ℚ) : PyF := pyMul (valueUSD h) (.fin rate)

/-- Column PnL_Disp (src/app.py line 224): PnL_USD times the display rate. -/
def pnlDisp (h : Holding) (rate : ℚ) : PyF := pyMul (pnlUSD h) (.fin rate)

/-- The four presentation figures of one holding at a display rate, in the
order invested, value, profit and loss, return percent (src/app.py lines 211
to 224).  The return column is the USD one; no display version of it is ever
computed. -/
def displayRow (h : Holding) (rate : ℚ) : PyF × PyF × PyF × PyF :=
  (investedDisp h rate, valueDisp h rate, pnlDisp h rate, returnPct h)

/-- Aggregate of column Invested_USD (src/app.py line 230). -/
def totInvUSD (l : List Holding) : PyF := pandasSum (l.map investedUSD)

/-- Aggregate of column PnL_USD (src/app.py line 230). -/
def totPnlUSD (l : List Holding) : PyF := pandasSum (l.map pnlUSD)

/-- Aggregate return tot_ret (src/app.py line 230): guarded by the Python
truthiness of the invested sum, so a zero aggregate cost basis yields 0
instead of a division. -/
def tot_ret (l : List Holding) : PyF :=
  if pyTruthy (totInvUSD l) then
    pyMul (pyDiv (totPnlUSD l) (totInvUSD l)) (.fin 100)
  else .fin 0

/-- A holding with zero cost basis and a positive market value. -/
def zeroCostHolding : Holding :=
  ⟨"ZERO", .fin 0, .fin 5, .fin 2, "Others", "Unknown"⟩

/-- Claim C1 counterexample: the per-holding Return column has no zero guard.
On a holding with Avg Price 0, Quantity 5 and Current Price 2 the invested
base is 0 and the reported return is positive infinity, not 0. -/
theorem c1_counterexample :
    investedUSD zeroCostHolding = .fin 0
    ∧ returnPct zeroCostHolding = .inf
    ∧ PyF.inf ≠ PyF.fin 0 := by
  have hinv : investedUSD zeroCostHolding = .fin 0 := by
    simp only [investedUSD, zeroCostHolding, pyMul]
    norm_num
  refine ⟨hinv, ?_, by decide⟩
  have hval : valueUSD zeroCostHolding = .fin 10 := by
    simp only [valueUSD, zeroCostHolding, pyMul]
    norm_num
  have hpnl : pnlUSD zeroCostHolding = .fin 10 := by
    simp only [pnlUSD, hval, hinv, pySub, pyNeg, pyAdd]
    norm_num
  simp only [returnPct, hpnl, hinv, pyDiv, pyMul]
  norm_num

theorem pyDiv_fin_zero_not_finite (x : PyF) : (pyDiv x (.fin 0)).isFinite = false := by
  cases x with
  | fin a =>
    by_cases ha : a = 0
    · simp [pyDiv, ha, PyF.isFinite]
    · by_cases hp : 0 < a
      · simp [pyDiv, ha, hp, PyF.isFinite]
      · simp [pyDiv, ha, hp, PyF.isFinite]
  | inf => simp [pyDiv, PyF.isFinite]
  | ninf => simp [pyDiv, PyF.isFinite]
  | nan => simp [pyDiv, PyF.isFinite]

theorem pyMul_hundred_not_finite (x : PyF) (hx : x.isFinite = false) :
    (pyMul x (.fin 100)).isFinite = false := by
  cases x with
  | fin a => simp [PyF.isFinite] at hx
  | inf =>
    simp only [pyMul, PyF.isFinite]
    norm_num
  | ninf =>
    simp only [pyMul, PyF.isFinite]
    norm_num
  | nan => simp [pyMul, PyF.isFinite]

/-- Claim C1 (amended): the aggregate half of the claim holds, the per-holding
half does not.  When the aggregate invested base is the float 0 the aggregate
return is reported as 0 without dividing; but a holding whose invested base is
the float 0 gets a non-finite Return value (infinity or NaN from the IEEE
division), never the 0 the specification states. -/
theorem c1_theorem (l : List Holding) (h : Holding)
    (hl : totInvUSD l = .fin 0) (hh : investedUSD h = .fin 0) :
    tot_ret l = .fin 0 ∧ (returnPct h).isFinite = false := by
  constructor
  · simp [tot_ret, hl, pyTruthy]
  · simp only [returnPct, hh]
    exact pyMul_hundred_not_finite _ (pyDiv_fin_zero_not_finite _)

/-- Claim C1 witness: the amended theorem applied to the singleton list of the
zero-cost holding, whose invested base is 0. -/
theorem c1_witness :
    tot_ret [zeroCostHolding] = .fin 0
    ∧ (returnPct zeroCostHolding).isFinite = false := by
  have hinv : investedUSD zeroCostHolding = .fin 0 := by
    simp only [investedUSD, zeroCostHolding, pyMul]
    norm_num
  have htot : totInvUSD [zeroCostHolding] = .fin 0 := by
    simp only [totInvUSD, List.map, pandasSum, List.foldl, hinv]
    norm_num [pyAdd]
  exact c1_theorem [zeroCostHolding] zeroCostHolding htot hinv

/-- Claim C8: for every holding and display rate, PnL_USD is exactly
Value_USD minus Invested_USD, the displayed profit and loss is exactly
PnL_USD times the rate, and the Return column is computed from the USD
figures alone, hence identical under any two display rates. -/
theorem c8_theorem (h : Holding) (r1 r2 : ℚ) :
    pySub (valueUSD h) (investedUSD h) = pnlUSD h
    ∧ pnlDisp h r1 = pyMul (pnlUSD h) (.fin r1)
    ∧ returnPct h = pyMul (pyDiv (pnlUSD h) (investedUSD h)) (.fin 100)
    ∧ (displayRow h r1).2.2.2 = (displayRow h r2).2.2.2 := by
  exact ⟨rfl, rfl, rfl, rfl⟩

/-- Update of one holding by a quote result, as in the refresh loop body
(src/app.py lines 129 to 132): on a valid result the Current Price, Sector
and Market Cap Class fields are overwritten in place, on failure the holding
is untouched. -/
def applyQuote (h : Holding) : FetchResult → Holding
  | .invalid => h
  | .valid p s c => { h with currentPrice := .fin p, sector := s, marketCapClass := c }

/-- The list produced by one refresh pass: every holding updated by the fetch
of its own ticker.  The parameter lookup is the behaviour of fetch_stock_data
as a function of the ticker, that is the per-ticker quote feeds composed with
fetch_stock_data. -/
def refreshList (lookup : String → FetchResult) (l : List Holding) : List Holding :=
  l.map (fun h => applyQuote h (lookup h.ticker))

/-- The loop of refresh_prices (src/app.py lines 126 to 134).  The parameter
total is len(current_list); after each item the code evaluates the progress
fraction (i + 1) / total, which in Python raises ZeroDivisionError when total
is 0, modelled by the error branch. -/
def refreshLoop (lookup : String → FetchResult) (total : Nat) :
    Nat → List Holding → Except Unit (List Holding)
  | _, [] => .ok []
  | i, h :: rest =>
    let h2 := applyQuote h (lookup h.ticker)
    if total = 0 then .error ()
    else
      match refreshLoop lookup total (i + 1) rest with
      | .error e => .error e
      | .ok rest2 => .ok (h2 :: rest2)

/-- Model of refresh_prices (src/app.py lines 121 to 136) on the list of
holdings of the active profile. -/
def refresh_prices (lookup : String → FetchResult) (l : List Holding) :
    Except Unit (List Holding) :=
  refreshLoop lookup l.length 0 l

theorem refreshLoop_ok (lookup : String → FetchResult) (total : Nat)
    (ht : total ≠ 0) :
    ∀ (l : List Holding) (i : Nat),
      refreshLoop lookup total i l = .ok (refreshList lookup l) := by
  intro l
  induction l with
  | nil => intro i; rfl
  | cons h rest ih =>
    intro i
    simp only [refreshLoop, ht, if_false, ih (i + 1), refreshList, List.map_cons]

theorem refresh_prices_ok (lookup : String → FetchResult) (l : List Holding) :
    refresh_prices lookup l = .ok (refreshList lookup l) := by
  cases l with
  | nil => rfl
  | cons h rest =>
    exact refreshLoop_ok lookup (h :: rest).length (by simp) (h :: rest) 0

/-- Claim C7: a refresh pass never raises, every holding is updated by the
quote of its own ticker position by position, a failed fetch leaves the
holding entirely unchanged while the rest of the list is still processed, and
a successful fetch overwrites exactly the Current Price, Sector and Market
Cap Class fields, leaving Avg Price, Quantity and Ticker unchanged. -/
theorem c7_theorem (lookup : String → FetchResult) (l : List Holding)
    (h : Holding) (p : ℚ) (sec cls : String) (i : Nat) :
    refresh_prices lookup l = .ok (refreshList lookup l)
    ∧ (refreshList lookup l)[i]?
        = l[i]?.map (fun x => applyQuote x (lookup x.ticker))
    ∧ applyQuote h .invalid = h
    ∧ applyQuote h (.valid p sec cls)
        = { h with currentPrice := .fin p, sector := sec, marketCapClass := cls }
    ∧ (applyQuote h (lookup h.ticker)).avgPrice = h.avgPrice
    ∧ (applyQuote h (lookup h.ticker)).quantity = h.quantity
    ∧ (applyQuote h (lookup h.ticker)).ticker = h.ticker := by
  refine ⟨refresh_prices_ok lookup l, List.getElem?_map _ l i, rfl, rfl, ?_, ?_, ?_⟩
  · cases lookup h.ticker <;> rfl
  · cases lookup h.ticker <;> rfl
  · cases lookup h.ticker <;> rfl

/-- The session state relevant to the Profile Store: the profiles map of
full_data (a Python dict, modelled as an association list in insertion
order) and current_profile. -/
structure Store where
  profiles : List (String × List Holding)
  current : String
deriving DecidableEq, Repr

/-- Python dict lookup on the profiles map (first entry with the key; keys of
a Python dict are unique). -/
def lookupProf (ps : List (String × List Holding)) (k : String) :
    Option (List Holding) :=
  (ps.find? (fun kv => decide (kv.1 = k))).map (fun kv => kv.2)

/-- Python dict assignment d[k] = v: an existing key keeps its position and
gets the new value, a fresh key is appended at the end. -/
def dictSet (ps : List (String × List Holding)) (k : String)
    (v : List Holding) : List (String × List Holding) :=
  match lookupProf ps k with
  | some _ => ps.map (fun kv => if kv.1 = k then (k, v) else kv)
  | none => ps ++ [(k, v)]

/-- Model of get_current_portfolio (src/app.py lines 98 to 99): dict get with
default empty list. -/
def get_current_portfolio (s : Store) : List Holding :=
  (lookupProf s.profiles s.current).getD []

/-- Model of update_current_portfolio (src/app.py lines 101 to 102). -/
def update_current_portfolio (s : Store) (nl : List Holding) : Store :=
  ⟨dictSet s.profiles s.current nl, s.current⟩

/-- The whole refresh operation at store level: refresh the active list and
write it back (src/app.py lines 121 to 136). -/
def refreshStore (lookup : String → FetchResult) (s : Store) :
    Except Unit Store :=
  match refresh_prices lookup (get_current_portfolio s) with
  | .error e => .error e
  | .ok nl => .ok (update_current_portfolio s nl)

theorem mapReplaceNoKey (k : String) (v : List Holding) :
    ∀ ps : List (String × List Holding), (∀ kv ∈ ps, kv.1 ≠ k) →
      ps.map (fun kv => if kv.1 = k then (k, v) else kv) = ps := by
  intro ps
  induction ps with
  | nil => intro _; rfl
  | cons a t ih =>
    intro hall
    have ha : a.1 ≠ k := hall a (List.mem_cons_self a t)
    simp only [List.map_cons, if_neg ha]
    rw [ih (fun kv hkv => hall kv (List.mem_cons_of_mem a hkv))]

theorem dictSet_self (k : String) (v : List Holding) :
    ∀ ps : List (String × List Holding), (ps.map Prod.fst).Nodup →
      lookupProf ps k = some v → dictSet ps k v = ps := by
  intro ps
  induction ps with
  | nil => intro _ hl; simp [lookupProf] at hl
  | cons a t ih =>
    intro hnd hl
    rw [List.map_cons, List.nodup_cons] at hnd
    by_cases hak : a.1 = k
    · have hv : a.2 = v := by
        simp [lookupProf, List.find?, hak] at hl
        exact hl
      have hkeys : ∀ kv ∈ t, kv.1 ≠ k := by
        intro kv hkv hkk
        exact hnd.1 (by rw [hak, ← hkk]; exact List.mem_map_of_mem Prod.fst hkv)
      simp only [dictSet, hl, List.map_cons, if_pos hak]
      rw [mapReplaceNoKey k v t hkeys]
      have : (k, v) = a := by
        rw [← hak, ← hv]
      rw [this]
    · have hlt : lookupProf t k = some v := by
        simpa [lookupProf, List.find?, hak] using hl
      have htail := ih hnd.2 hlt
      have hmt : t.map (fun kv => if kv.1 = k then (k, v) else kv) = t := by
        simpa [dictSet, hlt] using htail
      simp only [dictSet, hl, List.map_cons, if_neg hak, hmt]

/-- Claim C10: on a store whose active profile exists and is empty, the
refresh operation terminates without error (no division by zero, because the
progress computation runs only inside the per-holding loop) and returns the
store unchanged. -/
theorem c10_theorem (lookup : String → FetchResult) (s : Store)
    (hnd : (s.profiles.map Prod.fst).Nodup)
    (hcur : lookupProf s.profiles s.current = some []) :
    refreshStore lookup s = .ok s := by
  have hget : get_current_portfolio s = [] := by
    simp [get_current_portfolio, hcur]
  have hset : dictSet s.profiles s.current [] = s.profiles :=
    dictSet_self s.current [] s.profiles hnd hcur
  cases s with
  | mk ps cur =>
    simp only [refreshStore, hget, refresh_prices, refreshLoop,
      update_current_portfolio] at *
    simp [hset]

/-- Claim C10 witness: the theorem applied to the store holding one empty
Default profile, with a quote source that always fails. -/
theorem c10_witness :
    refreshStore (fun _ => FetchResult.invalid) ⟨[("Default", [])], "Default"⟩
      = .ok ⟨[("Default", [])], "Default"⟩ := by
  exact c10_theorem (fun _ => FetchResult.invalid) ⟨[("Default", [])], "Default"⟩
    (by simp) (by simp [lookupProf, List.find?])

/-- One CSV cell as seen through pandas: none models a NaN filled in for a
missing column, some s a raw field text. -/
abbrev Cell := Option String

/-- Split a character list on a separator, keeping empty pieces, as Python
str.split and the pandas tokenizer do. -/
def splitOnChar (sep : Char) : List Char → List (List Char)
  | [] => [[]]
  | c :: cs =>
    match splitOnChar sep cs with
    | [] => [[c]]
    | w :: ws => if c = sep then [] :: w :: ws else (c :: w) :: ws

/-- ASCII whitespace recognised by str.strip and float(). -/
def isSpaceChar (c : Char) : Bool :=
  (c == ' ') || (c == '\t') || (c == '\n') || (c == '\r')

/-- Strip leading and trailing whitespace from a character list. -/
def trimChars (cs : List Char) : List Char :=
  ((cs.dropWhile isSpaceChar).reverse.dropWhile isSpaceChar).reverse

/-- Value of a list of decimal digit characters. -/
def digitsToNat (cs : List Char) : Nat :=
  cs.foldl (fun a c => a * 10 + (c.toNat - 48)) 0

/-- Model of Python float() on a string: surrounding whitespace ignored,
optional sign, decimal digits with at most one dot, none when Python would
raise ValueError.  Exponent notation, digit underscores and the inf and nan
literals are not modelled; no claim exercises them. -/
def parseRat (s : String) : Option ℚ :=
  let signed : Bool × List Char :=
    match trimChars s.data with
    | '-' :: r => (true, r)
    | '+' :: r => (false, r)
    | r => (false, r)
  let ds := signed.2
  if ds.isEmpty then none
  else
    match splitOnChar '.' ds with
    | [ip] =>
      if ip.all Char.isDigit then
        some (if signed.1 then -(digitsToNat ip : ℚ) else (digitsToNat ip : ℚ))
      else none
    | [ip, fp] =>
      if ip.all Char.isDigit ∧ fp.all Char.isDigit ∧ (ip ≠ [] ∨ fp ≠ []) then
        let mag : ℚ := (digitsToNat ip : ℚ) + (digitsToNat fp : ℚ) / ((10 : ℚ) ^ fp.length)
        some (if signed.1 then -mag else mag)
      else none
    | _ => none

/-- Python float() applied to a cell: a NaN cell converts to NaN (float of a
pandas NaN succeeds), a text cell converts by float() or raises. -/
def cellFloat : Cell → Except Unit PyF
  | none => .ok .nan
  | some s =>
    match parseRat s with
    | some q => .ok (.fin q)
    | none => .error ()

/-- Python str() applied to a cell: a pandas NaN prints as "nan". -/
def cellStr : Cell → String
  | none => "nan"
  | some s => s

/-- Model of ticker.strip().upper() for ASCII tickers. -/
def normTicker (s : String) : String :=
  String.mk ((trimChars s.data).map Char.toUpper)

/-- Model of add_stock (src/app.py lines 104 to 119).  The parameter lookup
is the behaviour of the cached quote lookup get_stock_info_cached as a
function of the normalized ticker.  The quote is fetched first; on failure
nothing is appended and False is returned.  On success the new holding is
appended as a separate lot; float() of the price or quantity cell is
evaluated while building it and may raise, aborting before the append. -/
def add_stock (lookup : String → FetchResult) (ticker : String)
    (price qty : Cell) (l : List Holding) :
    Except Unit (List Holding × Bool) :=
  match lookup (normTicker ticker) with
  | .invalid => .ok (l, false)
  | .valid cp sec cls =>
    match cellFloat price with
    | .error e => .error e
    | .ok ap =>
      match cellFloat qty with
      | .error e => .error e
      | .ok q =>
        .ok (l ++ [⟨normTicker ticker, ap, q, .fin cp, sec, cls⟩], true)

/-- Pad a row with NaN cells on the right up to the established width. -/
def padRow (w : Nat) (fs : List Cell) : List Cell :=
  fs ++ List.replicate (w - fs.length) none

/-- The three named cells Ticker, Price, Qty of one row of established width
w.  When w exceeds the three names, pandas reads the leftmost extra columns
as an implicit index, so the names cover the last three columns of the
padded row; when w is at most three, the missing trailing cells are NaN. -/
def rowCells (w : Nat) (fs : List Cell) : Cell × Cell × Cell :=
  let trimmed := if 3 < w then (padRow w fs).drop (w - 3) else padRow w fs
  ((trimmed[0]?).getD none, (trimmed[1]?).getD none, (trimmed[2]?).getD none)

/-- Rows under the pandas tokenizer, which establishes the expected field
count from the first row: a later row with more fields than that raises
ParserError (the error branch), a shorter row is padded with NaN. -/
def parseRowsW (w : Nat) : List (List Cell) → Except Unit (List (Cell × Cell × Cell))
  | [] => .ok []
  | fs :: rest =>
    if fs.length > w then .error ()
    else
      match parseRowsW w rest with
      | .error e => .error e
      | .ok rs => .ok (rowCells w fs :: rs)

/-- The text as pandas read_csv with names Ticker, Price, Qty sees it: rows
split on newlines, blank lines skipped, an empty input raising
EmptyDataError, fields split on commas, the expected width fixed by the
first row (a wider first row triggers implicit-index reading rather than an
error).  Cells keep their raw field text; the dtype-dependent rendering of a
purely numeric column is not modelled (the tickers it would produce fail the
quote lookup either way). -/
def parseCsvRows (txt : String) : Except Unit (List (Cell × Cell × Cell)) :=
  let lines := (splitOnChar '\n' txt.data).filter (fun w => ¬ w.isEmpty)
  match lines with
  | [] => .error ()
  | first :: _ =>
    parseRowsW ((splitOnChar ',' first).length)
      (lines.map (fun l => (splitOnChar ',' l).map (fun w => some (String.mk w))))

def processRows (lookup : String → FetchResult) :
    List (Cell × Cell × Cell) → List Holding → Nat → List Holding × Option Nat
  | [], l, cnt => (l, some cnt)
  | (t, p, q) :: rest, l, cnt =>
    match add_stock lookup (cellStr t) p q l with
    | .error _ => (l, none)
    | .ok (l2, added) => processRows lookup rest l2 (cnt + (if added then 1 else 0))

/-- Model of process_csv (src/app.py lines 139 to 144): parse the whole text,
then feed each row through add_stock inside the generator summed by sum().
The second component models what the sidebar surfaces: some count on normal
completion (only the success count, shown when positive; no attempted count
exists anywhere), none when the except branch reports the error.  An
exception mid-batch keeps the holdings appended by the earlier rows and
processes no further row. -/
def process_csv (lookup : String → FetchResult) (txt : String)
    (l : List Holding) : List Holding × Option Nat :=
  match parseCsvRows txt with
  | .error _ => (l, none)
  | .ok rows => processRows lookup rows l 0

/-- A quote adapter that resolves AAPL and MSFT and fails on every other
ticker. -/
def lookupAM : String → FetchResult := fun t =>
  if t = "AAPL" then .valid 190 "Technology" "Mega Cap (초대형주)"
  else if t = "MSFT" then .valid 410 "Technology" "Mega Cap (초대형주)"
  else .invalid

/-- Claim C3 counterexample: rows are not ingested independently.  On the
batch "AAPL,abc,10" then "MSFT,300,5" with an adapter resolving both tickers,
the first row (non-numeric price) raises inside add_stock, the error path of
process_csv reports an error, and the resolvable MSFT row is never processed:
no holding is appended at all, instead of the malformed row being skipped and
MSFT succeeding. -/
theorem c3_counterexample :
    process_csv lookupAM "AAPL,abc,10\nMSFT,300,5" [] = ([], none)
    ∧ lookupAM "MSFT" ≠ .invalid := by
  constructor
  · decide
  · decide

/-- Claim C3 (amended): a row whose quote lookup fails (including a short row
whose NaN price never gets converted because the lookup fails first) is
skipped without aborting the batch, and the specification example behaves as
stated: the batch "AAPL,150,10", "BAD_ROW", "MSFT,300,5" with an adapter
resolving AAPL and MSFT yields success count 2 out of 3 attempted rows and
appends exactly the two resolved holdings in input order.  However a row with
a non-numeric price or quantity whose ticker resolves aborts the remainder of
the batch (see the counterexample); a row wider than the width established by
the first row makes the whole parse raise, adding nothing; a first row wider
than the three columns shifts the extra leading columns into an implicit
index, so every ticker lands in the wrong column, each row fails its quote
lookup, and the batch completes with success count 0 rather than ingesting
anything; and only the success count is surfaced, no attempted count is
returned or shown. -/
theorem c3_theorem :
    process_csv lookupAM "AAPL,150,10\nBAD_ROW\nMSFT,300,5" []
      = ([⟨"AAPL", .fin 150, .fin 10, .fin 190, "Technology", "Mega Cap (초대형주)"⟩,
          ⟨"MSFT", .fin 300, .fin 5, .fin 410, "Technology", "Mega Cap (초대형주)"⟩],
         some 2)
    ∧ process_csv lookupAM "AAPL,150,10,extra\nMSFT,300,5" [] = ([], some 0)
    ∧ process_csv lookupAM "AAPL,150,10\nMSFT,300,5,extra" [] = ([], none) := by
  refine ⟨by decide, by decide, by decide⟩

/-- A JSON value, as stored in the remote document store.  Objects are
association lists in key order; parsed JSON objects have unique keys. -/
inductive JVal where
  | null
  | jbool (b : Bool)
  | num (q : ℚ)
  | str (s : String)
  | arr (elems : List JVal)
  | obj (fields : List (String × JVal))

/-- Python dict get on a JSON object; none on a missing key or a non-object. -/
def jGet : JVal → String → Option JVal
  | .obj fs, k => (fs.find? (fun kv => decide (kv.1 = k))).map (fun kv => kv.2)
  | _, _ => none

/-- Python equality between a string and a JSON value, as the list membership
test evaluates it: true only on the equal string (a str never equals a
non-str JSON value under Python ==). -/
def strEqJVal (k : String) : JVal → Bool
  | .str s => decide (s = k)
  | _ => false

/-- Whether the first character list is a prefix of the second. -/
def listPrefix : List Char → List Char → Bool
  | [], _ => true
  | _ :: _, [] => false
  | x :: xs, y :: ys => (x == y) && listPrefix xs ys

/-- Whether the needle occurs as a contiguous run of the haystack (Python
substring containment). -/
def isSubList (needle : List Char) : List Char → Bool
  | [] => needle.isEmpty
  | c :: rest => listPrefix needle (c :: rest) || isSubList needle rest

/-- Python membership test k in data for a string key k: key lookup on a
dict, element equality on a list, substring containment on a string, and
TypeError (the error branch, caught by the enclosing bare except) on the
remaining JSON values. -/
def pyIn (k : String) : JVal → Except Unit Bool
  | .obj fs => .ok ((fs.find? (fun kv => decide (kv.1 = k))).isSome)
  | .arr l => .ok (l.any (strEqJVal k))
  | .str s => .ok (isSubList k.data s.data)
  | _ => .error ()

/-- Python subscript data[k] for a string key: dict access (KeyError on an
absent key), TypeError on any other JSON value, so on a list or string that
passed the membership test the subscript still raises. -/
def pyIndex (data : JVal) (k : String) : Except Unit JVal :=
  match data with
  | .obj _ =>
    match jGet data k with
    | some v => .ok v
    | none => .error ()
  | _ => .error ()

/-- Python isinstance(x, list). -/
def isList : JVal → Bool
  | .arr _ => true
  | _ => false

/-- Python truthiness of a JSON value: empty containers, empty string, zero
and False and None are falsy. -/
def jTruthy : JVal → Bool
  | .null => false
  | .jbool b => b
  | .num q => if q = 0 then false else true
  | .str s => if s = "" then false else true
  | .arr l => if l.isEmpty then false else true
  | .obj l => if l.isEmpty then false else true

/-- Outcome of the GET request of load_data_from_cloud: either an HTTP
exchange with a status and the parsed record field of the body (the empty
object when the key is absent), or a raised exception (network failure or
unparseable JSON body). -/
inductive RemoteResp where
  | ok (status : Nat) (record : JVal)
  | exn

/-- Outcome of the PUT request of save_data_to_cloud. -/
inductive SaveResp where
  | ok (status : Nat)
  | exn

/-- The empty default document of the Remote Sync Client. -/
def defaultDoc : JVal := .obj [("profiles", .obj [("Default", .arr [])])]

/-- The second branch test of the try body (src/app.py line 37): if the
profiles membership test passes the record is returned as is, otherwise the
default document; the membership test itself may raise. -/
def checkProfiles (data : JVal) : Except Unit JVal :=
  match pyIn "profiles" data with
  | .error e => .error e
  | .ok true => .ok data
  | .ok false => .ok defaultDoc

/-- The try body applied to the parsed record (src/app.py lines 35 to 38):
first the short-circuit test portfolio-in-data, then (only when it passed)
the subscript and the isinstance test, then the profiles test.  Any raise
(TypeError of the membership test or of the subscript on a non-dict record)
propagates to the bare except. -/
def loadBody (data : JVal) : Except Unit JVal :=
  match pyIn "portfolio" data with
  | .error e => .error e
  | .ok true =>
    match pyIndex data "portfolio" with
    | .error e => .error e
    | .ok port =>
      if isList port then .ok (.obj [("profiles", .obj [("Default", port)])])
      else checkProfiles data
  | .ok false => checkProfiles data

/-- Model of load_data_from_cloud (src/app.py lines 28 to 40).  The parameter
configured tells whether both the API key and the bin id are present in the
secrets; when they are not, the function returns the empty dict at once and
no request is made (the response parameter is ignored).  On HTTP 200 the try
body runs on the record: a legacy document with a list under the portfolio
key is migrated in memory, a document passing the profiles membership test
(also a list holding the string, or a string containing it) is returned as
is, any other document yields the empty default; a raise inside the body, a
non-200 status or a failed request also yield the empty default document. -/
def load_data_from_cloud (configured : Bool) (resp : RemoteResp) : JVal :=
  if configured then
    match resp with
    | .exn => defaultDoc
    | .ok status record =>
      if status = 200 then
        match loadBody record with
        | .ok v => v
        | .error _ => defaultDoc
      else defaultDoc
  else .obj []

/-- Model of save_data_to_cloud (src/app.py lines 42 to 49): False without a
request when unconfigured, else True exactly on HTTP 200, False on an
exception. -/
def save_data_to_cloud (configured : Bool) (resp : SaveResp) : Bool :=
  if configured then
    match resp with
    | .ok status => decide (status = 200)
    | .exn => false
  else false

/-- The init_load block (src/app.py lines 91 to 94): a truthy load result
replaces full_data, a falsy one (the empty dict) keeps the previous state. -/
def initLoadStep (prev cloud : JVal) : JVal :=
  if jTruthy cloud then cloud else prev

/-- Claim C9: with no credentials configured, the load returns the empty dict
(not the empty default document) and the save returns False, both
independently of any response (no request is made in the model, whose result
does not depend on the response parameter), and the init-load step keeps the
previous session state because the empty dict is falsy. -/
theorem c9_theorem (resp : RemoteResp) (sresp : SaveResp) (prev : JVal) :
    load_data_from_cloud false resp = .obj []
    ∧ JVal.obj [] ≠ defaultDoc
    ∧ save_data_to_cloud false sresp = false
    ∧ initLoadStep prev (load_data_from_cloud false resp) = prev := by
  refine ⟨rfl, ?_, rfl, rfl⟩
  intro h
  simp [defaultDoc] at h

/-- The legacy holding of the specification example. -/
def legacyHolding : JVal :=
  .obj [("Ticker", .str "AAPL"), ("Avg Price", .num 100), ("Quantity", .num 1)]

/-- The legacy single-list document of the specification example. -/
def legacyDoc : JVal := .obj [("portfolio", .arr [legacyHolding])]

/-- A malformed document that happens to contain a profiles key. -/
def malformedDoc : JVal := .obj [("profiles", .num 5)]

/-- Claim C5 counterexample: a malformed remote document is not always turned
into the empty default document.  The document with the number 5 under the
profiles key is returned unchanged, so load does not return a document in the
multi-profile shape in every case. -/
theorem c5_counterexample :
    load_data_from_cloud true (.ok 200 malformedDoc) = malformedDoc
    ∧ malformedDoc ≠ defaultDoc := by
  refine ⟨rfl, ?_⟩
  intro h
  simp [malformedDoc, defaultDoc] at h

/-- Claim C5 (amended): with credentials configured, a failed request or a
non-200 status yields the empty default document; a 200 object document whose
portfolio key holds a list is migrated in memory to the multi-profile shape
around that list (and the migration writes nothing back, being a pure
computation); a 200 record that fails the portfolio membership test and
passes the profiles membership test is returned unchanged, even when it is
malformed, including the non-dict records the Python in test accepts (a list
holding the string profiles, a string containing it); a 200 record failing
both membership tests yields the empty default; and a 200 record on which the
membership test raises TypeError (a number, boolean or null record) also
yields the empty default through the bare except. -/
theorem c5_theorem (status : Nat) (record p : JVal) :
    load_data_from_cloud true .exn = defaultDoc
    ∧ (status ≠ 200 → load_data_from_cloud true (.ok status record) = defaultDoc)
    ∧ (jGet record "portfolio" = some p → isList p = true →
        load_data_from_cloud true (.ok 200 record)
          = .obj [("profiles", .obj [("Default", p)])])
    ∧ (pyIn "portfolio" record = .ok false → pyIn "profiles" record = .ok true →
        load_data_from_cloud true (.ok 200 record) = record)
    ∧ (pyIn "portfolio" record = .ok false → pyIn "profiles" record = .ok false →
        load_data_from_cloud true (.ok 200 record) = defaultDoc)
    ∧ (pyIn "portfolio" record = .error () →
        load_data_from_cloud true (.ok 200 record) = defaultDoc) := by
  refine ⟨rfl, ?_, ?_, ?_, ?_, ?_⟩
  · intro h
    simp [load_data_from_cloud, h]
  · intro hp hl
    cases record with
    | obj fs =>
      obtain ⟨kv, hfind, hkv⟩ := Option.map_eq_some'.mp hp
      simp [load_data_from_cloud, loadBody, pyIn, pyIndex, jGet, hfind, hkv, hl]
    | null => simp [jGet] at hp
    | jbool b => simp [jGet] at hp
    | num q => simp [jGet] at hp
    | str s => simp [jGet] at hp
    | arr l => simp [jGet] at hp
  · intro hport hprof
    simp [load_data_from_cloud, loadBody, hport, checkProfiles, hprof]
  · intro hport hprof
    simp [load_data_from_cloud, loadBody, hport, checkProfiles, hprof]
  · intro hport
    simp [load_data_from_cloud, loadBody, hport]

/-- Claim C5 witness: the amended theorem at a 404 response, at the legacy
document of the specification example (which is migrated exactly as the
specification states), at the default document itself, at the empty object,
at the list holding the string profiles (returned as is), and at a number
record (TypeError, default document). -/
theorem c5_witness :
    load_data_from_cloud true (.ok 404 .null) = defaultDoc
    ∧ load_data_from_cloud true (.ok 200 legacyDoc)
        = .obj [("profiles", .obj [("Default", .arr [legacyHolding])])]
    ∧ load_data_from_cloud true (.ok 200 defaultDoc) = defaultDoc
    ∧ load_data_from_cloud true (.ok 200 (.obj [])) = defaultDoc
    ∧ load_data_from_cloud true (.ok 200 (.arr [.str "profiles"]))
        = .arr [.str "profiles"]
    ∧ load_data_from_cloud true (.ok 200 (.num 5)) = defaultDoc := by
  refine ⟨(c5_theorem 404 .null .null).2.1 (by decide),
          (c5_theorem 200 legacyDoc (.arr [legacyHolding])).2.2.1 rfl rfl,
          (c5_theorem 200 defaultDoc .null).2.2.2.1 rfl rfl,
          (c5_theorem 200 (.obj []) .null).2.2.2.2.1 rfl rfl,
          (c5_theorem 200 (.arr [.str "profiles"]) .null).2.2.2.1 rfl rfl,
          (c5_theorem 200 (.num 5) .null).2.2.2.2.2 rfl⟩

/-- Profile creation (src/app.py lines 161 to 165): a nonempty name not yet
present is inserted with an empty holdings list and becomes the active
profile; otherwise nothing happens. -/
def createProfile (s : Store) (name : String) : Store :=
  if name ≠ "" ∧ lookupProf s.profiles name = none then
    ⟨s.profiles ++ [(name, [])], name⟩
  else s

/-- Profile deletion (src/app.py lines 166 to 169): the delete button is only
rendered when more than one profile is listed; deletion removes the active
key and reassigns the active name to the first remaining key.  (The del
statement presumes the active key exists, which the selectbox above
guarantees within one script run.) -/
def deleteCurrentProfile (s : Store) : Store :=
  if 1 < s.profiles.length then
    let ps := s.profiles.filter (fun kv => decide (kv.1 ≠ s.current))
    ⟨ps, ((ps.head?).map (fun kv => kv.1)).getD ""⟩
  else s

/-- The profile selectbox (src/app.py lines 153 to 157): switching the active
profile to one of the listed keys. -/
def setActiveProfile (s : Store) (name : String) : Store :=
  if (lookupProf s.profiles name).isSome then ⟨s.profiles, name⟩ else s

/-- The cloud load button (src/app.py lines 177 to 179): a truthy load result
replaces the whole profiles map while current_profile is left untouched; a
falsy result (none here) changes nothing. -/
def cloudLoadStore (s : Store)
    (loaded : Option (List (String × List Holding))) : Store :=
  match loaded with
  | none => s
  | some ps => ⟨ps, s.current⟩

/-- The Profile Store invariant of the specification: at least one profile
exists, profile keys are unique (a Python dict), and the active name refers
to an existing key. -/
def StoreInv (s : Store) : Prop :=
  s.profiles ≠ [] ∧ (s.profiles.map Prod.fst).Nodup
    ∧ s.current ∈ s.profiles.map Prod.fst

theorem lookupProf_none_iff (ps : List (String × List Holding)) (k : String) :
    lookupProf ps k = none ↔ k ∉ ps.map Prod.fst := by
  simp only [lookupProf, Option.map_eq_none', List.find?_eq_none,
    decide_eq_true_eq, List.mem_map]
  constructor
  · rintro h ⟨kv, hkv, hk⟩
    exact h kv hkv hk
  · intro h kv hkv hk
    exact h ⟨kv, hkv, hk⟩

theorem lookupProf_isSome_iff (ps : List (String × List Holding)) (k : String) :
    (lookupProf ps k).isSome = true ↔ k ∈ ps.map Prod.fst := by
  cases hl : lookupProf ps k with
  | none =>
    simp only [Option.isSome_none, Bool.false_eq_true, false_iff]
    exact (lookupProf_none_iff ps k).mp hl
  | some v =>
    simp only [Option.isSome_some, true_iff]
    by_contra hmem
    have h2 := (lookupProf_none_iff ps k).mpr hmem
    rw [hl] at h2
    exact Option.noConfusion h2

theorem createProfile_inv (s : Store) (name : String) (h : StoreInv s) :
    StoreInv (createProfile s name) := by
  by_cases hg : name ≠ "" ∧ lookupProf s.profiles name = none
  · have hnot : name ∉ s.profiles.map Prod.fst :=
      (lookupProf_none_iff s.profiles name).mp hg.2
    simp only [createProfile, if_pos hg, StoreInv, List.map_append]
    refine ⟨by simp, ?_, by simp⟩
    rw [List.nodup_append]
    exact ⟨h.2.1, List.nodup_singleton name,
      fun a ha hb => by simp at hb; exact hnot (hb ▸ ha)⟩
  · simpa only [createProfile, if_neg hg] using h

theorem setActiveProfile_inv (s : Store) (name : String) (h : StoreInv s) :
    StoreInv (setActiveProfile s name) := by
  by_cases hg : (lookupProf s.profiles name).isSome = true
  · have hmem : name ∈ s.profiles.map Prod.fst :=
      (lookupProf_isSome_iff s.profiles name).mp hg
    simp only [setActiveProfile, if_pos hg, StoreInv]
    exact ⟨h.1, h.2.1, hmem⟩
  · have hg2 : ¬ (lookupProf s.profiles name).isSome := hg
    simpa only [setActiveProfile, if_neg hg2] using h

theorem deleteCurrentProfile_inv (s : Store) (h : StoreInv s) :
    StoreInv (deleteCurrentProfile s)
    ∧ (1 < s.profiles.length →
        (deleteCurrentProfile s).current ≠ s.current
        ∧ (deleteCurrentProfile s).current
            ∈ (deleteCurrentProfile s).profiles.map Prod.fst) := by
  by_cases hlen : 1 < s.profiles.length
  · -- the filtered list is nonempty: among the first two entries, whose keys
    -- differ, at least one key differs from the active one
    have hex : ∃ kv ∈ s.profiles, kv.1 ≠ s.current := by
      match hps : s.profiles, hlen with
      | a :: b :: t, _ =>
        have hab : a.1 ≠ b.1 := by
          have hnd := h.2.1
          rw [hps] at hnd
          simp only [List.map_cons, List.nodup_cons, List.mem_cons] at hnd
          intro hq
          exact hnd.1 (Or.inl hq)
        by_cases ha : a.1 = s.current
        · exact ⟨b, by simp, fun hb => hab (by rw [ha, hb])⟩
        · exact ⟨a, by simp, ha⟩
    obtain ⟨kv, hkvmem, hkvne⟩ := hex
    set ps2 := s.profiles.filter (fun kv => decide (kv.1 ≠ s.current)) with hps2
    have hkv2 : kv ∈ ps2 := by
      rw [hps2, List.mem_filter]
      exact ⟨hkvmem, by simpa using hkvne⟩
    have hne : ps2 ≠ [] := List.ne_nil_of_mem hkv2
    obtain ⟨hd, tl, hcons⟩ := List.exists_cons_of_ne_nil hne
    have hdmem : hd ∈ ps2 := by rw [hcons]; simp
    have hdne : hd.1 ≠ s.current := by
      have := (List.mem_filter.mp hdmem).2
      simpa using this
    have hnd2 : (ps2.map Prod.fst).Nodup :=
      h.2.1.sublist (List.Sublist.map Prod.fst (List.filter_sublist s.profiles))
    have hdel : deleteCurrentProfile s
        = ⟨ps2, ((ps2.head?).map (fun kv => kv.1)).getD ""⟩ := by
      simp only [deleteCurrentProfile, if_pos hlen]
    have hhead : ((ps2.head?).map (fun kv => kv.1)).getD "" = hd.1 := by
      rw [hcons]
      rfl
    constructor
    · rw [hdel]
      refine ⟨hne, hnd2, ?_⟩
      simp only [hhead]
      exact List.mem_map_of_mem Prod.fst hdmem
    · intro _
      rw [hdel]
      simp only [hhead]
      exact ⟨hdne, List.mem_map_of_mem Prod.fst hdmem⟩
  · constructor
    · simpa only [deleteCurrentProfile, if_neg hlen] using h
    · intro hc
      exact absurd hc hlen

/-- Claim C6 counterexample: the cloud load operation does not preserve the
Profile Store invariant.  Starting from the valid store with the single
profile Alice active, loading a document holding only a Default profile
replaces the profiles map but leaves the active name Alice, which then refers
to no existing profile. -/
theorem c6_counterexample :
    StoreInv ⟨[("Alice", [])], "Alice"⟩
    ∧ cloudLoadStore ⟨[("Alice", [])], "Alice"⟩ (some [("Default", [])])
        = ⟨[("Default", [])], "Alice"⟩
    ∧ ¬ StoreInv ⟨[("Default", [])], "Alice"⟩ := by
  refine ⟨?_, rfl, ?_⟩
  · exact ⟨by simp, by simp, by simp⟩
  · intro hinv
    have := hinv.2.2
    simp at this

/-- Claim C6 (amended): profile creation, profile selection and profile
deletion all preserve the invariant that at least one profile exists and the
active name refers to an existing key; deleting when a single profile is
listed is rejected and leaves the store unchanged; a successful deletion
reassigns the active name to the first remaining key, which differs from the
deleted one.  The cloud load operation, however, replaces the profiles map
without touching the active name and can break the invariant (see the
counterexample); the selectbox heals it on the next render pass. -/
theorem c6_theorem (s : Store) (name : String) (h : StoreInv s) :
    StoreInv (createProfile s name)
    ∧ StoreInv (setActiveProfile s name)
    ∧ StoreInv (deleteCurrentProfile s)
    ∧ (s.profiles.length = 1 → deleteCurrentProfile s = s)
    ∧ (1 < s.profiles.length →
        (deleteCurrentProfile s).current ≠ s.current
        ∧ (deleteCurrentProfile s).current
            ∈ (deleteCurrentProfile s).profiles.map Prod.fst) := by
  refine ⟨createProfile_inv s name h, setActiveProfile_inv s name h,
    (deleteCurrentProfile_inv s h).1, ?_, (deleteCurrentProfile_inv s h).2⟩
  intro hone
  have : ¬ 1 < s.profiles.length := by omega
  simp only [deleteCurrentProfile, if_neg this]

/-- Claim C6 witness: the amended theorem at a two-profile store and at a
one-profile store. -/
theorem c6_witness :
    StoreInv (createProfile ⟨[("A", []), ("B", [])], "A"⟩ "C")
    ∧ StoreInv (deleteCurrentProfile ⟨[("A", []), ("B", [])], "A"⟩)
    ∧ (deleteCurrentProfile ⟨[("A", []), ("B", [])], "A"⟩).current ≠ "A"
    ∧ deleteCurrentProfile ⟨[("A", [])], "A"⟩ = ⟨[("A", [])], "A"⟩ := by
  have h2 : StoreInv ⟨[("A", []), ("B", [])], "A"⟩ := ⟨by simp, by simp, by simp⟩
  have h1 : StoreInv ⟨[("A", [])], "A"⟩ := ⟨by simp, by simp, by simp⟩
  refine ⟨(c6_theorem ⟨[("A", []), ("B", [])], "A"⟩ "C" h2).1,
    (c6_theorem ⟨[("A", []), ("B", [])], "A"⟩ "C" h2).2.2.1,
    ((c6_theorem ⟨[("A", []), ("B", [])], "A"⟩ "C" h2).2.2.2.2 (by simp)).1,
    (c6_theorem ⟨[("A", [])], "A"⟩ "A" h1).2.2.2.1 rfl⟩
